import Mathlib

/-!
Verification of the network_lib TCP and event-bus layer (src/network/tcp.c,
src/network/event.c, src/network/socket.h) through a shallow embedding.

Sockets are records carrying a base-table index; the shared base table is a
list of base records holding the OS descriptor, the connection state and the
option flags, exactly as in `socket_base_t`.  OS system calls (`listen`,
`accept`, `select`, `setsockopt`, `socket`) are oracles passed as parameters,
and their invocations are recorded in an effect trace, together with logging
and deallocation calls, so that claims about side effects can be stated.

Functions of the repository that live in socket.c (not part of the given
sources) - `socket_set_blocking`, `_socket_allocate_base`,
`_socket_store_address_local`, the address `clone` - are modelled from the
specification and marked as such in their doc comments.
-/

namespace NetworkLib

/-- Socket connection states, from `socket_state_t` (SOCKETSTATE_*). -/
inductive SocketState
  | NotConnected
  | Connecting
  | Connected
  | Listening
  | Disconnected
deriving DecidableEq

/-- The flag bitset of a base record: {Blocking, TcpDelay, Reflush, Hangup},
each bit modelled as a named boolean. -/
structure SocketFlags where
  blocking : Bool
  tcpdelay : Bool
  reflush : Bool
  hangup : Bool
deriving DecidableEq

/-- A network address: family tag, raw socket-address bytes and port
(`network_address_t`). -/
structure Address where
  family : Nat
  addrBytes : List Nat
  port : Nat
deriving DecidableEq

/-- The invalid OS descriptor (`SOCKET_INVALID`). -/
def SOCKET_INVALID : Int := -1

/-- The errno value for a would-block condition (`EAGAIN`). -/
def EAGAIN : Int := 11

/-- A base record of the shared slice table (`socket_base_t`): OS descriptor,
state and flags (the I/O buffers are not touched by the verified functions
and are omitted). -/
structure SocketBase where
  fd : Int
  state : SocketState
  flags : SocketFlags
deriving DecidableEq

/-- A socket record (`socket_t`): base-table index (negative when no base
slot is allocated), the owned local and remote addresses, and the object
identity (`ptr`, the address of the record, which the stream path formats).
The protocol dispatch function pointers are implicit: every socket here is a
TCP socket. -/
structure Socket where
  base : Int
  address_local : Option Address
  address_remote : Option Address
  ptr : Nat
deriving DecidableEq

/-- All-zero flags. -/
def zeroFlags : SocketFlags := ⟨false, false, false, false⟩

/-- A freshly allocated base record: no descriptor, `NotConnected`, no flags
(cf. spec §4.2: `allocate_base` zero-initializes the slot; the descriptor
field holds `SOCKET_INVALID`, in accordance with the invariant
`fd == INVALID ⇒ state == NotConnected`). -/
def zeroBase : SocketBase := ⟨SOCKET_INVALID, SocketState.NotConnected, zeroFlags⟩

/-- Read the base record at index `i` of the table (`_socket_base + i`).
A negative or out-of-range index yields `zeroBase`; the C code never reads
out of range (callers guard with `sock->base < 0`). -/
def baseAt (t : List SocketBase) (i : Int) : SocketBase :=
  t.getD i.toNat zeroBase

/-- Side effects recorded by the embedded functions: OS system calls,
logging, and deallocation of partial results. -/
inductive Effect
  | setBlockingOS (fd : Int) (block : Bool)
  | osListen (fd : Int)
  | osAccept (fd : Int)
  | osSelect (fd : Int) (timeoutms : Nat)
  | setsockopt_nodelay (fd : Int) (value : Nat)
  | closeFd (fd : Int)
  | deallocSocket
  | deallocAddress
  | logError
  | logDebug
  | logInfo
deriving DecidableEq

/-- Modelled from the spec: the address layer `clone` (address.c, not among
the given sources) produces an independent copy equal to the original
(`clone(a) == a`). -/
def network_address_clone (a : Address) : Address := a

/-- Modelled from the spec: `socket_set_blocking` (socket.c, not among the
given sources) updates the `Blocking` flag of the base record and toggles the
OS non-blocking flag on the descriptor (recorded as an effect). -/
def socket_set_blocking (t : List SocketBase) (sock : Socket) (block : Bool) :
    List SocketBase × List Effect :=
  if sock.base < 0 then (t, [])
  else
    let sb := baseAt t sock.base
    (t.set sock.base.toNat { sb with flags := { sb.flags with blocking := block } },
     [Effect.setBlockingOS sb.fd block])

/-- Modelled from the spec: `_socket_allocate_base` (socket.c, not among the
given sources) returns a free base slot, zero-initializes it, links it to the
socket and returns its index, or fails with `OutOfSlots`.  The free slot is
modelled as a fresh slot appended at the end of the table; `ok` is the
out-of-slots oracle. -/
def _socket_allocate_base (t : List SocketBase) (ok : Bool) :
    Option (List SocketBase × Nat) :=
  if ok then some (t ++ [zeroBase], t.length) else none

/-- Modelled from the spec: `_socket_store_address_local` (socket.c, not
among the given sources) derives `address_local` from `getsockname` on the
socket's descriptor; the address the OS reports is the oracle `addr`. -/
def _socket_store_address_local (sock : Socket) (addr : Address) : Socket :=
  { sock with address_local := some addr }

/-- `tcp_socket_allocate`: allocate a zero-initialized socket record and
set it up as a TCP socket (tcp.c lines 32-46; the record starts with no base
slot and no addresses, per `_socket_initialize` of socket.c described by the
spec's data model).  `ok` is the allocator oracle, `ptr` the address of the
new record. -/
def tcp_socket_allocate (ok : Bool) (ptr : Nat) : Option Socket :=
  if ok then some { base := -1, address_local := none, address_remote := none, ptr := ptr }
  else none

/-- `tcp_socket_listen` (tcp.c lines 48-89).  `osListenOk` is the oracle for
the OS `listen` call returning 0.  Returns the boolean result, the new base
table and the effect trace. -/
def tcp_socket_listen (t : List SocketBase) (sock : Socket) (osListenOk : Bool) :
    Bool × List SocketBase × List Effect :=
  if sock.base < 0 then (false, t, [])
  else
    let sb := baseAt t sock.base
    if sb.state ≠ SocketState.NotConnected ∨ sb.fd = SOCKET_INVALID ∨
        sock.address_local = none then
      (false, t, [])
    else if osListenOk then
      (true, t.set sock.base.toNat { sb with state := SocketState.Listening },
       [Effect.osListen sb.fd, Effect.logInfo])
    else
      (false, t, [Effect.osListen sb.fd, Effect.logError])

/-- `tcp_socket_delay` (tcp.c lines 208-216): read the `TcpDelay` flag;
`false` when no base slot is allocated. -/
def tcp_socket_delay (t : List SocketBase) (sock : Socket) : Bool :=
  if sock.base < 0 then false
  else (baseAt t sock.base).flags.tcpdelay

/-- `tcp_socket_set_delay` (tcp.c lines 218-230): set or clear the
`TcpDelay` flag, and if the descriptor is valid apply `TCP_NODELAY` with the
inverted value `(delay ? 0 : 1)`. -/
def tcp_socket_set_delay (t : List SocketBase) (sock : Socket) (delay : Bool) :
    List SocketBase × List Effect :=
  if sock.base < 0 then (t, [])
  else
    let sb := baseAt t sock.base
    let t1 := t.set sock.base.toNat { sb with flags := { sb.flags with tcpdelay := delay } }
    if sb.fd ≠ SOCKET_INVALID then
      (t1, [Effect.setsockopt_nodelay sb.fd (if delay then 0 else 1)])
    else
      (t1, [])

/-- `_tcp_socket_open` (tcp.c lines 232-258): ask the OS for a stream
descriptor (`osFd` oracle); on failure log and set `fd = SOCKET_INVALID`, on
success set `fd` and re-apply the `TcpDelay` flag through
`tcp_socket_set_delay`. -/
def _tcp_socket_open (t : List SocketBase) (sock : Socket) (osFd : Int) :
    List SocketBase × List Effect :=
  if sock.base < 0 then (t, [])
  else
    let sb := baseAt t sock.base
    if osFd < 0 then
      (t.set sock.base.toNat { sb with fd := SOCKET_INVALID }, [Effect.logError])
    else
      let t1 := t.set sock.base.toNat { sb with fd := osFd }
      let r := tcp_socket_set_delay t1 sock sb.flags.tcpdelay
      (r.1, Effect.logDebug :: r.2)

/-- The outcome of one OS `accept` call: the returned descriptor, the peer
address written into the caller's buffer (meaningful when `fd ≥ 0`), and the
errno on failure. -/
structure OSAcceptCall where
  fd : Int
  addr : Address
  errno : Int
deriving DecidableEq

/-- The OS and allocator oracle consulted by `tcp_socket_accept`: the first
`accept` call, the `select` return value, the retried `accept` call, the two
allocator outcomes, the address of the new socket record, and the
`getsockname` result for the new descriptor. -/
structure AcceptOS where
  call1 : OSAcceptCall
  selectRet : Int
  call2 : OSAcceptCall
  allocSockOk : Bool
  newPtr : Nat
  allocBaseOk : Bool
  localAddr : Address
deriving DecidableEq

/-- The system-call portion of `tcp_socket_accept` (tcp.c lines 126-155):
one `accept` on the listening descriptor; on failure with `EAGAIN` and a
positive timeout, `select` on the descriptor for up to `timeoutms` and, when
it reports readiness, one retried `accept`.  Returns the final descriptor,
the final contents of the address buffer (initially `buf`, overwritten by a
successful `accept`), and the trace of OS calls. -/
def _tcp_accept_syscalls (listenfd : Int) (buf : Address) (timeoutms : Nat)
    (os : AcceptOS) : Int × Address × List Effect :=
  if os.call1.fd < 0 then
    if 0 < timeoutms ∧ os.call1.errno = EAGAIN then
      if 0 < os.selectRet then
        (os.call2.fd, (if os.call2.fd < 0 then buf else os.call2.addr),
         [Effect.osAccept listenfd, Effect.osSelect listenfd timeoutms,
          Effect.osAccept listenfd])
      else
        (os.call1.fd, buf,
         [Effect.osAccept listenfd, Effect.osSelect listenfd timeoutms])
    else
      (os.call1.fd, buf, [Effect.osAccept listenfd])
  else
    (os.call1.fd, os.call1.addr, [Effect.osAccept listenfd])

/-- The result of `tcp_socket_accept`: the listening socket record (which the
function never modifies), the base table after the call, the accepted socket
when one was produced, and the effect trace. -/
structure AcceptOutcome where
  sock : Socket
  table : List SocketBase
  accepted : Option Socket
  effects : List Effect
deriving DecidableEq

/-- `tcp_socket_accept` (tcp.c lines 91-206).  Guards: a base slot must be
allocated, the state must be `Listening`, the descriptor valid and the local
address set.  If `timeoutms > 0` and the socket is blocking, it is switched
to non-blocking around the system calls and switched back afterwards.  The
peer-address buffer is a clone of the local address, overwritten by the OS.
On a negative final descriptor the clone is deallocated and no socket is
returned; on allocation failure the accepted descriptor is closed or the
partial socket deallocated.  On success the new socket's base is `Connected`
with the accepted descriptor, `address_remote` holds the OS-written buffer
and `address_local` comes from `getsockname`. -/
def tcp_socket_accept (t : List SocketBase) (sock : Socket) (timeoutms : Nat)
    (os : AcceptOS) : AcceptOutcome :=
  if sock.base < 0 then ⟨sock, t, none, []⟩
  else
    let sb := baseAt t sock.base
    if sb.state ≠ SocketState.Listening ∨ sb.fd = SOCKET_INVALID ∨
        sock.address_local = none then
      ⟨sock, t, none, [Effect.logError]⟩
    else
      let la := sock.address_local.getD ⟨0, [], 0⟩
      let blocking := sb.flags.blocking
      let pre := if 0 < timeoutms ∧ blocking then socket_set_blocking t sock false
                 else (t, [])
      let buf := network_address_clone la
      let r := _tcp_accept_syscalls sb.fd buf timeoutms os
      let post := if 0 < timeoutms ∧ blocking then socket_set_blocking pre.1 sock true
                  else (pre.1, [])
      let t2 := post.1
      let effs := pre.2 ++ r.2.2 ++ post.2
      if r.1 < 0 then
        ⟨sock, t2, none, effs ++ [Effect.logDebug, Effect.deallocAddress]⟩
      else
        match tcp_socket_allocate os.allocSockOk os.newPtr with
        | none =>
          ⟨sock, t2, none, effs ++ [Effect.logDebug, Effect.closeFd r.1]⟩
        | some acc0 =>
          match _socket_allocate_base t2 os.allocBaseOk with
          | none =>
            ⟨sock, t2, none, effs ++ [Effect.logDebug, Effect.deallocSocket]⟩
          | some tb =>
            let acc1 : Socket := { acc0 with base := (tb.2 : Int) }
            let acceptbase := baseAt tb.1 acc1.base
            let t4 := tb.1.set tb.2
              { acceptbase with fd := r.1, state := SocketState.Connected }
            let acc2 := { acc1 with address_remote := some r.2.1 }
            let acc3 := _socket_store_address_local acc2 os.localAddr
            ⟨sock, t4, some acc3, effs ++ [Effect.logInfo]⟩

/-- A stream record, restricted to the fields `_tcp_stream_initialize`
touches plus the `sequential` flag of the data model. -/
structure StreamRec where
  inorder : Bool
  reliable : Bool
  sequential : Bool
  path : String
deriving DecidableEq

/-- Rendering of a pointer by the `PRIfixPTR` format of the external string
formatting collaborator: the object address in hexadecimal. -/
def format_fixPTR (p : Nat) : String := String.mk (Nat.toDigits 16 p)

/-- `_tcp_stream_initialize` (tcp.c lines 260-265): mark the stream in-order
and reliable and set its path to `tcp://` followed by the socket's object
identity. -/
def _tcp_stream_initialize (sock : Socket) (s : StreamRec) : StreamRec :=
  { s with inorder := true, reliable := true,
           path := "tcp://" ++ format_fixPTR sock.ptr }

/-- One record of the foundation event stream, restricted to the fields the
network layer reads and writes (`id`, `flags`, `object`; the payload posted
by `network_event_post` is always empty). -/
structure EventRec where
  id : Nat
  flags : Nat
  object : Nat
  payloadSize : Nat
deriving DecidableEq

/-- The foundation event stream collaborator (spec §6): a capacity and the
FIFO sequence of posted records. -/
structure EventStreamRec where
  capacity : Nat
  records : List EventRec
deriving DecidableEq

/-- Collaborator contract (spec §6): `event_stream_allocate(capacity)`
returns an empty stream of that capacity. -/
def event_stream_allocate (capacity : Nat) : EventStreamRec := ⟨capacity, []⟩

/-- Collaborator contract (spec §6): `event_post(stream, id, flags, object,
payload_ptr, payload_size)` appends one record to the sequence. -/
def event_post (s : EventStreamRec) (id flags obj psize : Nat) : EventStreamRec :=
  { s with records := s.records ++ [⟨id, flags, obj, psize⟩] }

/-- The module's global event state: the `_network_events` pointer
(event.c line 24), null when not allocated. -/
structure NetworkEventState where
  network_events : Option EventStreamRec
deriving DecidableEq

/-- `network_event_initialize` (event.c lines 26-31): allocate the stream
with the configured size when none is allocated yet; always return 0. -/
def network_event_initialize (cfgSize : Nat) (st : NetworkEventState) :
    NetworkEventState × Int :=
  (if st.network_events.isNone
   then ⟨some (event_stream_allocate cfgSize)⟩ else st, 0)

/-- `network_event_finalize` (event.c lines 33-38): deallocate the stream if
allocated and reset the pointer to null. -/
def network_event_finalize (_st : NetworkEventState) : NetworkEventState :=
  ⟨none⟩

/-- `network_event_stream` (event.c lines 40-43). -/
def network_event_stream (st : NetworkEventState) : Option EventStreamRec :=
  st.network_events

/-- `network_event_post` (event.c lines 45-48): post `(id, 0, sock, 0, 0)`
to the global stream.  The C code passes the global pointer to `event_post`
unconditionally; posting with no allocated stream is modelled as a no-op
(the collaborator requires an allocated stream). -/
def network_event_post (st : NetworkEventState) (id sock : Nat) :
    NetworkEventState :=
  match st.network_events with
  | some s => ⟨some (event_post s id 0 sock 0)⟩
  | none => st

/-- `network_event_socket` (event.c lines 50-53): the socket handle carried
by an event record. -/
def network_event_socket (e : EventRec) : Nat := e.object

/-! ### Helper lemmas on the base table -/

/-- Writing back the value just read leaves the table unchanged. -/
theorem set_getD_restore {α : Type} (t : List α) (i : Nat) (d : α) :
    t.set i (t.getD i d) = t := by
  induction t generalizing i with
  | nil => rfl
  | cons a ts ih =>
    cases i with
    | zero => rfl
    | succ j => simpa [List.getD] using ih j

/-- The table produced by `socket_set_blocking` when a base slot is
present. -/
theorem socket_set_blocking_fst (t : List SocketBase) (sock : Socket) (b : Bool)
    (h : ¬ sock.base < 0) :
    (socket_set_blocking t sock b).1 =
      t.set sock.base.toNat
        { baseAt t sock.base with
          flags := { (baseAt t sock.base).flags with blocking := b } } := by
  simp [socket_set_blocking, h]

/-- Reading the slot just written. -/
theorem baseAt_set_self (t : List SocketBase) (i : Int) (sb : SocketBase)
    (hlen : i.toNat < t.length) :
    baseAt (t.set i.toNat sb) i = sb := by
  simp [baseAt, List.getD, List.getElem?_set_self', hlen]

/-- Setting the blocking flag back to `true` after clearing it restores the
table, provided the flag was `true` to begin with. -/
theorem socket_set_blocking_restore (t : List SocketBase) (sock : Socket)
    (hbl : (baseAt t sock.base).flags.blocking = true) :
    (socket_set_blocking (socket_set_blocking t sock false).1 sock true).1 = t := by
  by_cases hneg : sock.base < 0
  · simp [socket_set_blocking, hneg]
  · rw [socket_set_blocking_fst _ _ _ hneg, socket_set_blocking_fst _ _ _ hneg]
    by_cases hlen : sock.base.toNat < t.length
    · rw [baseAt_set_self t sock.base _ hlen, List.set_set]
      have hrec :
          ({ { baseAt t sock.base with
               flags := { (baseAt t sock.base).flags with blocking := false } } with
             flags := { ({ baseAt t sock.base with
               flags := { (baseAt t sock.base).flags with blocking := false } }
                 : SocketBase).flags with blocking := true } } : SocketBase) =
            baseAt t sock.base := by
        cases hb : baseAt t sock.base with
        | mk fd0 st0 fl0 =>
          cases fl0
          rw [hb] at hbl
          simp_all
      rw [hrec]
      simpa [baseAt] using set_getD_restore t sock.base.toNat zeroBase
    · push_neg at hlen
      rw [List.set_eq_of_length_le hlen, List.set_eq_of_length_le hlen]

/-- `socket_set_blocking` leaves the length of the base table unchanged. -/
theorem socket_set_blocking_length (t : List SocketBase) (sock : Socket) (b : Bool) :
    (socket_set_blocking t sock b).1.length = t.length := by
  unfold socket_set_blocking
  by_cases hneg : sock.base < 0 <;> simp [hneg]

/-- Out-of-range reads of the base table yield the zero record. -/
theorem baseAt_out_of_range (t : List SocketBase) (i : Int)
    (h : t.length ≤ i.toNat) : baseAt t i = zeroBase := by
  simp [baseAt, List.getD, List.getElem?_eq_none, h]

/-- Appending a slot and writing it does not disturb existing slots. -/
theorem baseAt_snoc_set (t : List SocketBase) (x y : SocketBase) (i : Int)
    (hlen : i.toNat < t.length) :
    baseAt ((t ++ [x]).set t.length y) i = baseAt t i := by
  have hne : i.toNat ≠ t.length := Nat.ne_of_lt hlen
  simp [baseAt, List.getD, List.getElem?_set_ne hne, List.getElem?_append, hlen]

/-- The descriptor finally produced by the system-call portion of
`tcp_socket_accept` (the value of `fd` at tcp.c line 160). -/
def acceptSyscallFd (t : List SocketBase) (sock : Socket) (tm : Nat)
    (os : AcceptOS) : Int :=
  (_tcp_accept_syscalls (baseAt t sock.base).fd
    (network_address_clone (sock.address_local.getD ⟨0, [], 0⟩)) tm os).1

/-- The contents of the peer-address buffer after the system-call portion of
`tcp_socket_accept` (the value of `address_remote` at tcp.c line 160). -/
def acceptSyscallAddr (t : List SocketBase) (sock : Socket) (tm : Nat)
    (os : AcceptOS) : Address :=
  (_tcp_accept_syscalls (baseAt t sock.base).fd
    (network_address_clone (sock.address_local.getD ⟨0, [], 0⟩)) tm os).2.1

/-- The OS-call trace of the system-call portion of `tcp_socket_accept`. -/
def acceptSyscallEffects (t : List SocketBase) (sock : Socket) (tm : Nat)
    (os : AcceptOS) : List Effect :=
  (_tcp_accept_syscalls (baseAt t sock.base).fd
    (network_address_clone (sock.address_local.getD ⟨0, [], 0⟩)) tm os).2.2

/-- The effect list emitted by `socket_set_blocking` when a base slot is
present. -/
theorem socket_set_blocking_snd (t : List SocketBase) (sock : Socket) (b : Bool)
    (h : ¬ sock.base < 0) :
    (socket_set_blocking t sock b).2 =
      [Effect.setBlockingOS (baseAt t sock.base).fd b] := by
  simp [socket_set_blocking, h]

/-- Reading the freshly written slot appended at the end of the table. -/
theorem baseAt_snoc_set_self (t : List SocketBase) (x y : SocketBase) :
    baseAt ((t ++ [x]).set t.length y) (t.length : Int) = y := by
  have hlen : t.length < (t ++ [x]).length := by simp
  simp [baseAt, List.getD, List.getElem?_set_self', hlen]

/-- Full characterization of `tcp_socket_accept` on a listening, bound
socket with a valid descriptor: the blocking-mode toggles cancel out on the
table, the failure paths return the original table, and the success path
appends one `Connected` base slot carrying the accepted descriptor and
returns a socket holding the OS peer address and the `getsockname` local
address. -/
theorem tcp_socket_accept_listening_eq (t : List SocketBase) (sock : Socket)
    (tm : Nat) (os : AcceptOS) (hb : ¬ sock.base < 0)
    (hstate : (baseAt t sock.base).state = SocketState.Listening)
    (hfd : (baseAt t sock.base).fd ≠ SOCKET_INVALID)
    (hla : sock.address_local ≠ none) :
    tcp_socket_accept t sock tm os =
      (let fd := acceptSyscallFd t sock tm os
       let effs :=
         (if 0 < tm ∧ (baseAt t sock.base).flags.blocking then
            [Effect.setBlockingOS (baseAt t sock.base).fd false] else []) ++
         acceptSyscallEffects t sock tm os ++
         (if 0 < tm ∧ (baseAt t sock.base).flags.blocking then
            [Effect.setBlockingOS (baseAt t sock.base).fd true] else [])
       if fd < 0 then
         ⟨sock, t, none, effs ++ [Effect.logDebug, Effect.deallocAddress]⟩
       else if os.allocSockOk = false then
         ⟨sock, t, none, effs ++ [Effect.logDebug, Effect.closeFd fd]⟩
       else if os.allocBaseOk = false then
         ⟨sock, t, none, effs ++ [Effect.logDebug, Effect.deallocSocket]⟩
       else
         ⟨sock,
          (t ++ [zeroBase]).set t.length ⟨fd, SocketState.Connected, zeroFlags⟩,
          some ⟨(t.length : Int), some os.localAddr,
                some (acceptSyscallAddr t sock tm os), os.newPtr⟩,
          effs ++ [Effect.logInfo]⟩) := by
  have hlen : sock.base.toNat < t.length := by
    by_contra hout
    push_neg at hout
    rw [baseAt_out_of_range t sock.base hout] at hfd
    exact hfd rfl
  have hncond : ¬ ((baseAt t sock.base).state ≠ SocketState.Listening ∨
      (baseAt t sock.base).fd = SOCKET_INVALID ∨ sock.address_local = none) := by
    simp [hstate, hfd, hla]
  simp only [tcp_socket_accept, if_neg hb]
  rw [if_neg hncond]
  by_cases htb : 0 < tm ∧ (baseAt t sock.base).flags.blocking = true
  · have hrest := socket_set_blocking_restore t sock htb.2
    have hfst := socket_set_blocking_fst t sock false hb
    have hmid : baseAt (socket_set_blocking t sock false).1 sock.base =
        { baseAt t sock.base with
          flags := { (baseAt t sock.base).flags with blocking := false } } := by
      rw [hfst]
      exact baseAt_set_self t sock.base _ hlen
    have hsnd1 := socket_set_blocking_snd t sock false hb
    have hsnd2 := socket_set_blocking_snd (socket_set_blocking t sock false).1
      sock true hb
    rw [hmid] at hsnd2
    simp only [if_pos htb, hrest, hsnd1, hsnd2]
    by_cases hok : os.allocSockOk = true
    · by_cases hbk : os.allocBaseOk = true
      · simp [acceptSyscallFd, acceptSyscallAddr, acceptSyscallEffects,
              tcp_socket_allocate, _socket_allocate_base, hok, hbk,
              _socket_store_address_local, baseAt, List.getD, zeroBase]
      · simp [acceptSyscallFd, acceptSyscallAddr, acceptSyscallEffects,
              tcp_socket_allocate, _socket_allocate_base, hok, hbk]
    · simp [acceptSyscallFd, acceptSyscallAddr, acceptSyscallEffects,
            tcp_socket_allocate, hok]
  · simp only [if_neg htb]
    by_cases hok : os.allocSockOk = true
    · by_cases hbk : os.allocBaseOk = true
      · simp [acceptSyscallFd, acceptSyscallAddr, acceptSyscallEffects,
              tcp_socket_allocate, _socket_allocate_base, hok, hbk,
              _socket_store_address_local, baseAt, List.getD, zeroBase]
      · simp [acceptSyscallFd, acceptSyscallAddr, acceptSyscallEffects,
              tcp_socket_allocate, _socket_allocate_base, hok, hbk]
    · simp [acceptSyscallFd, acceptSyscallAddr, acceptSyscallEffects,
            tcp_socket_allocate, hok]

/-! ### Claim theorems -/

/-- Claim C9: when no base slot is allocated (`sock->base < 0`), every TCP
operation returns its defined safe value and leaves the base table (and the
socket) untouched: `tcp_socket_listen` returns `false`, `tcp_socket_accept`
returns no socket, `tcp_socket_delay` returns `false` and
`tcp_socket_set_delay` returns without effect. -/
theorem tcp_ops_no_base_slot_spec (t : List SocketBase) (sock : Socket)
    (ok d : Bool) (tm : Nat) (os : AcceptOS) (h : sock.base < 0) :
    tcp_socket_listen t sock ok = (false, t, []) ∧
    tcp_socket_accept t sock tm os = ⟨sock, t, none, []⟩ ∧
    tcp_socket_delay t sock = false ∧
    tcp_socket_set_delay t sock d = (t, []) := by
  refine ⟨?_, ?_, ?_, ?_⟩ <;>
    simp [tcp_socket_listen, tcp_socket_accept, tcp_socket_delay,
          tcp_socket_set_delay, h]

/-- Witness for C9 at a concrete socket with `base = -1`. -/
theorem tcp_ops_no_base_slot_spec_witness :
    tcp_socket_listen [zeroBase] ⟨-1, none, none, 7⟩ true = (false, [zeroBase], []) ∧
    tcp_socket_accept [zeroBase] ⟨-1, none, none, 7⟩ 100
        ⟨⟨-1, ⟨0, [], 0⟩, 0⟩, 0, ⟨-1, ⟨0, [], 0⟩, 0⟩, true, 9, true, ⟨0, [], 0⟩⟩ =
      ⟨⟨-1, none, none, 7⟩, [zeroBase], none, []⟩ ∧
    tcp_socket_delay [zeroBase] ⟨-1, none, none, 7⟩ = false ∧
    tcp_socket_set_delay [zeroBase] ⟨-1, none, none, 7⟩ true = ([zeroBase], []) :=
  tcp_ops_no_base_slot_spec [zeroBase] ⟨-1, none, none, 7⟩ true true 100
    ⟨⟨-1, ⟨0, [], 0⟩, 0⟩, 0, ⟨-1, ⟨0, [], 0⟩, 0⟩, true, 9, true, ⟨0, [], 0⟩⟩ (by decide)

/-- Reduction of `tcp_socket_accept` on a bound socket that fails the
listening precondition (shared helper). -/
theorem tcp_socket_accept_invalid_eq (t : List SocketBase)
    (sock : Socket) (tm : Nat) (os : AcceptOS) (hb : ¬ sock.base < 0)
    (hcond : (baseAt t sock.base).state ≠ SocketState.Listening ∨
             (baseAt t sock.base).fd = SOCKET_INVALID ∨
             sock.address_local = none) :
    tcp_socket_accept t sock tm os = ⟨sock, t, none, [Effect.logError]⟩ := by
  simp only [tcp_socket_accept, if_neg hb]
  rw [if_pos hcond]

/-- Claim C5: with a base slot allocated, `tcp_socket_accept` on a socket
that is not listening, or has an invalid descriptor, or no local address,
returns no socket, logs an error, and leaves the base table (and the socket
record) unchanged. -/
theorem tcp_socket_accept_invalid_state_spec (t : List SocketBase)
    (sock : Socket) (tm : Nat) (os : AcceptOS) (hb : ¬ sock.base < 0)
    (hcond : (baseAt t sock.base).state ≠ SocketState.Listening ∨
             (baseAt t sock.base).fd = SOCKET_INVALID ∨
             sock.address_local = none) :
    tcp_socket_accept t sock tm os = ⟨sock, t, none, [Effect.logError]⟩ :=
  tcp_socket_accept_invalid_eq t sock tm os hb hcond

/-- Witness for C5 at a concrete bound but non-listening socket. -/
theorem tcp_socket_accept_invalid_state_spec_witness :
    tcp_socket_accept [⟨3, SocketState.NotConnected, zeroFlags⟩]
        ⟨0, some ⟨2, [127, 0, 0, 1], 8080⟩, none, 7⟩ 100
        ⟨⟨5, ⟨0, [], 0⟩, 0⟩, 0, ⟨-1, ⟨0, [], 0⟩, 0⟩, true, 9, true, ⟨0, [], 0⟩⟩ =
      ⟨⟨0, some ⟨2, [127, 0, 0, 1], 8080⟩, none, 7⟩,
       [⟨3, SocketState.NotConnected, zeroFlags⟩], none, [Effect.logError]⟩ :=
  tcp_socket_accept_invalid_state_spec [⟨3, SocketState.NotConnected, zeroFlags⟩]
    ⟨0, some ⟨2, [127, 0, 0, 1], 8080⟩, none, 7⟩ 100
    ⟨⟨5, ⟨0, [], 0⟩, 0⟩, 0, ⟨-1, ⟨0, [], 0⟩, 0⟩, true, 9, true, ⟨0, [], 0⟩⟩
    (by decide) (by decide)

/-- Claim C2: with a base slot allocated, `tcp_socket_listen` returns `true`
and sets the base state to `Listening` only when on entry the state is
`NotConnected`, the descriptor is valid and `address_local` is set; when any
of these preconditions fails it returns `false` and the table is unchanged
(in particular the state is not set to `Listening`). -/
theorem tcp_socket_listen_spec (t : List SocketBase) (sock : Socket)
    (ok : Bool) (hb : ¬ sock.base < 0) :
    ((tcp_socket_listen t sock ok).1 = true →
       (baseAt t sock.base).state = SocketState.NotConnected ∧
       (baseAt t sock.base).fd ≠ SOCKET_INVALID ∧
       sock.address_local ≠ none ∧
       (baseAt (tcp_socket_listen t sock ok).2.1 sock.base).state =
         SocketState.Listening) ∧
    (((baseAt t sock.base).state ≠ SocketState.NotConnected ∨
      (baseAt t sock.base).fd = SOCKET_INVALID ∨ sock.address_local = none) →
       (tcp_socket_listen t sock ok).1 = false ∧
       (tcp_socket_listen t sock ok).2.1 = t) := by
  by_cases hcond : (baseAt t sock.base).state ≠ SocketState.NotConnected ∨
      (baseAt t sock.base).fd = SOCKET_INVALID ∨ sock.address_local = none
  · constructor
    · intro htrue
      exfalso
      simp only [tcp_socket_listen, if_neg hb] at htrue
      rw [if_pos hcond] at htrue
      simp at htrue
    · intro _
      simp only [tcp_socket_listen, if_neg hb]
      rw [if_pos hcond]
      exact ⟨rfl, rfl⟩
  · push_neg at hcond
    obtain ⟨hstate, hfd, hla⟩ := hcond
    have hlen : sock.base.toNat < t.length := by
      by_contra hout
      push_neg at hout
      rw [baseAt_out_of_range t sock.base hout] at hfd
      exact hfd rfl
    constructor
    · intro htrue
      refine ⟨hstate, hfd, hla, ?_⟩
      simp only [tcp_socket_listen, if_neg hb] at htrue ⊢
      rw [if_neg (by simp [hstate, hfd, hla])] at htrue ⊢
      by_cases hok : ok = true
      · rw [if_pos hok]
        simp [baseAt_set_self t sock.base _ hlen]
      · rw [if_neg hok] at htrue
        simp at htrue
    · intro hfail
      exfalso
      rcases hfail with h | h | h
      · exact h hstate
      · exact hfd h
      · exact hla h

/-- Witness for C2: a bound, not-connected socket with a valid descriptor,
where the OS `listen` call succeeds. -/
theorem tcp_socket_listen_spec_witness :
    ((tcp_socket_listen [⟨3, SocketState.NotConnected, zeroFlags⟩]
        ⟨0, some ⟨2, [127, 0, 0, 1], 8080⟩, none, 7⟩ true).1 = true →
       (baseAt [⟨3, SocketState.NotConnected, zeroFlags⟩] (0 : Int)).state =
         SocketState.NotConnected ∧
       (baseAt [⟨3, SocketState.NotConnected, zeroFlags⟩] (0 : Int)).fd ≠
         SOCKET_INVALID ∧
       (some ⟨2, [127, 0, 0, 1], 8080⟩ : Option Address) ≠ none ∧
       (baseAt (tcp_socket_listen [⟨3, SocketState.NotConnected, zeroFlags⟩]
           ⟨0, some ⟨2, [127, 0, 0, 1], 8080⟩, none, 7⟩ true).2.1 (0 : Int)).state =
         SocketState.Listening) ∧
    (((baseAt [⟨3, SocketState.NotConnected, zeroFlags⟩] (0 : Int)).state ≠
        SocketState.NotConnected ∨
      (baseAt [⟨3, SocketState.NotConnected, zeroFlags⟩] (0 : Int)).fd =
        SOCKET_INVALID ∨
      (some ⟨2, [127, 0, 0, 1], 8080⟩ : Option Address) = none) →
       (tcp_socket_listen [⟨3, SocketState.NotConnected, zeroFlags⟩]
          ⟨0, some ⟨2, [127, 0, 0, 1], 8080⟩, none, 7⟩ true).1 = false ∧
       (tcp_socket_listen [⟨3, SocketState.NotConnected, zeroFlags⟩]
          ⟨0, some ⟨2, [127, 0, 0, 1], 8080⟩, none, 7⟩ true).2.1 =
         [⟨3, SocketState.NotConnected, zeroFlags⟩]) :=
  tcp_socket_listen_spec [⟨3, SocketState.NotConnected, zeroFlags⟩]
    ⟨0, some ⟨2, [127, 0, 0, 1], 8080⟩, none, 7⟩ true (by decide)

/-- Claim C4: with a base slot allocated, `tcp_socket_set_delay` sets the
`TcpDelay` flag iff `delay` is true; when the descriptor is valid it applies
`TCP_NODELAY` with the inverted value (`0` when `delay`, `1` otherwise) and
no OS call is made on an invalid descriptor; and a successful reopen through
`_tcp_socket_open` re-applies the stored flag to the new descriptor. -/
theorem tcp_socket_set_delay_spec (t : List SocketBase) (sock : Socket)
    (delay : Bool) (osFd : Int) (hb : ¬ sock.base < 0)
    (hlen : sock.base.toNat < t.length) :
    (baseAt (tcp_socket_set_delay t sock delay).1 sock.base).flags.tcpdelay =
      delay ∧
    ((baseAt t sock.base).fd ≠ SOCKET_INVALID →
      (tcp_socket_set_delay t sock delay).2 =
        [Effect.setsockopt_nodelay (baseAt t sock.base).fd
          (if delay then 0 else 1)]) ∧
    ((baseAt t sock.base).fd = SOCKET_INVALID →
      (tcp_socket_set_delay t sock delay).2 = []) ∧
    (0 ≤ osFd →
      (_tcp_socket_open t sock osFd).2 =
        [Effect.logDebug,
         Effect.setsockopt_nodelay osFd
           (if (baseAt t sock.base).flags.tcpdelay then 0 else 1)]) := by
  refine ⟨?_, ?_, ?_, ?_⟩
  · by_cases hfd : (baseAt t sock.base).fd ≠ SOCKET_INVALID <;>
      simp [tcp_socket_set_delay, hb, hfd, baseAt_set_self t sock.base _ hlen]
  · intro hfd
    simp [tcp_socket_set_delay, hb, hfd]
  · intro hfd
    simp [tcp_socket_set_delay, hb, hfd]
  · intro hpos
    have hneg : ¬ osFd < 0 := not_lt.mpr hpos
    have hinv : osFd ≠ SOCKET_INVALID := by
      intro heq
      rw [heq] at hpos
      exact absurd hpos (by decide)
    simp only [_tcp_socket_open, if_neg hb, if_neg hneg]
    have h1 : baseAt (t.set sock.base.toNat
        { baseAt t sock.base with fd := osFd }) sock.base =
        { baseAt t sock.base with fd := osFd } :=
      baseAt_set_self t sock.base _ hlen
    simp [tcp_socket_set_delay, hb, h1, hinv]

/-- Witness for C4: a socket on slot 0 with a valid descriptor, delay turned
on, then the reopen path with a fresh descriptor. -/
theorem tcp_socket_set_delay_spec_witness :
    (baseAt (tcp_socket_set_delay [⟨3, SocketState.NotConnected, zeroFlags⟩]
        ⟨0, none, none, 7⟩ true).1 (0 : Int)).flags.tcpdelay = true ∧
    ((baseAt [⟨3, SocketState.NotConnected, zeroFlags⟩] (0 : Int)).fd ≠
        SOCKET_INVALID →
      (tcp_socket_set_delay [⟨3, SocketState.NotConnected, zeroFlags⟩]
          ⟨0, none, none, 7⟩ true).2 =
        [Effect.setsockopt_nodelay
          (baseAt [⟨3, SocketState.NotConnected, zeroFlags⟩] (0 : Int)).fd
          (if true then 0 else 1)]) ∧
    ((baseAt [⟨3, SocketState.NotConnected, zeroFlags⟩] (0 : Int)).fd =
        SOCKET_INVALID →
      (tcp_socket_set_delay [⟨3, SocketState.NotConnected, zeroFlags⟩]
          ⟨0, none, none, 7⟩ true).2 = []) ∧
    (0 ≤ (9 : Int) →
      (_tcp_socket_open [⟨3, SocketState.NotConnected, zeroFlags⟩]
          ⟨0, none, none, 7⟩ 9).2 =
        [Effect.logDebug,
         Effect.setsockopt_nodelay 9
           (if (baseAt [⟨3, SocketState.NotConnected, zeroFlags⟩]
               (0 : Int)).flags.tcpdelay then 0 else 1)]) :=
  tcp_socket_set_delay_spec [⟨3, SocketState.NotConnected, zeroFlags⟩]
    ⟨0, none, none, 7⟩ true 9 (by decide) (by decide)

/-- Claim C6: initializing the stream of a TCP socket marks it in-order and
reliable and sets its path to `tcp://` followed by the socket's identifier
(the object identity that `PRIfixPTR` renders). -/
theorem tcp_stream_init_spec (sock : Socket) (s : StreamRec) :
    ( _tcp_stream_initialize sock s).inorder = true ∧
    ( _tcp_stream_initialize sock s).reliable = true ∧
    ( _tcp_stream_initialize sock s).path = "tcp://" ++ format_fixPTR sock.ptr :=
  ⟨rfl, rfl, rfl⟩

/-- Claim C7: `network_event_initialize` allocates the stream with the
configured size only when none is allocated (a second call changes nothing)
and always returns 0; `network_event_finalize` resets the stream to null, so
`network_event_stream` returns null after it. -/
theorem network_event_lifecycle_spec (sz : Nat) (st : NetworkEventState) :
    ( network_event_initialize sz st).2 = 0 ∧
    (st.network_events = none →
      ( network_event_initialize sz st).1.network_events =
        some (event_stream_allocate sz)) ∧
    (∀ s, st.network_events = some s →
      ( network_event_initialize sz st).1 = st) ∧
    ( network_event_initialize sz ( network_event_initialize sz st).1).1 =
      ( network_event_initialize sz st).1 ∧
    network_event_stream (network_event_finalize st) = none := by
  refine ⟨rfl, ?_, ?_, ?_, rfl⟩
  · intro hnone
    simp [ network_event_initialize, hnone]
  · intro s hs
    simp [ network_event_initialize, hs]
  · cases hst : st.network_events <;>
      simp [ network_event_initialize, hst]

/-- Witness for C7 starting from the unallocated state. -/
theorem network_event_lifecycle_spec_witness :
    ( network_event_initialize 1024 ⟨none⟩).2 = 0 ∧
    ((⟨none⟩ : NetworkEventState).network_events = none →
      ( network_event_initialize 1024 ⟨none⟩).1.network_events =
        some (event_stream_allocate 1024)) ∧
    (∀ s, (⟨none⟩ : NetworkEventState).network_events = some s →
      ( network_event_initialize 1024 ⟨none⟩).1 = ⟨none⟩) ∧
    ( network_event_initialize 1024 ( network_event_initialize 1024 ⟨none⟩).1).1 =
      ( network_event_initialize 1024 ⟨none⟩).1 ∧
    network_event_stream (network_event_finalize ⟨none⟩) = none :=
  network_event_lifecycle_spec 1024 ⟨none⟩

/-- Claim C8: posting `(id, h)` appends to the event stream one record
carrying `id` and `h`, and `network_event_socket` recovers exactly the
posted handle from that record. -/
theorem network_event_post_roundtrip_spec (st : NetworkEventState)
    (s : EventStreamRec) (id h : Nat) (hs : st.network_events = some s) :
    ∃ r : EventRec,
      (network_event_post st id h).network_events =
        some { s with records := s.records ++ [r] } ∧
      r.id = id ∧ network_event_socket r = h := by
  refine ⟨⟨id, 0, h, 0⟩, ?_, rfl, rfl⟩
  simp [network_event_post, hs, event_post]

/-- Witness for C8 posting event 2 for handle 42 to an empty stream. -/
theorem network_event_post_roundtrip_spec_witness :
    ∃ r : EventRec,
      (network_event_post ⟨some ⟨256, []⟩⟩ 2 42).network_events =
        some { (⟨256, []⟩ : EventStreamRec) with records := [] ++ [r] } ∧
      r.id = 2 ∧ network_event_socket r = 42 :=
  network_event_post_roundtrip_spec ⟨some ⟨256, []⟩⟩ ⟨256, []⟩ 2 42 rfl

/-- Reading just past the end of the original table after a snoc. -/
theorem baseAt_snoc_self (t : List SocketBase) (x : SocketBase) :
    baseAt (t ++ [x]) (t.length : Int) = x := by
  simp [baseAt, List.getD]

/-- Appending slots does not disturb reads inside the original table. -/
theorem baseAt_append_left (t l : List SocketBase) (i : Int)
    (h : i.toNat < t.length) : baseAt (t ++ l) i = baseAt t i := by
  simp [baseAt, List.getD, List.getElem?_append, h]

/-- When the system-call portion produces a usable descriptor, the final
address buffer was written by one of the two OS `accept` calls. -/
theorem acceptSyscall_addr_cases (t : List SocketBase) (sock : Socket)
    (tm : Nat) (os : AcceptOS) (h : 0 ≤ acceptSyscallFd t sock tm os) :
    acceptSyscallAddr t sock tm os = os.call1.addr ∨
    acceptSyscallAddr t sock tm os = os.call2.addr := by
  unfold acceptSyscallFd at h
  unfold acceptSyscallAddr
  unfold _tcp_accept_syscalls at h ⊢
  by_cases h1 : os.call1.fd < 0
  · by_cases h2 : 0 < tm ∧ os.call1.errno = EAGAIN
    · by_cases h3 : 0 < os.selectRet
      · by_cases h4 : os.call2.fd < 0
        · simp only [h1, if_true, h2, h3, if_pos, h4] at h
          exact absurd h (not_le.mpr h4)
        · simp [h1, h2, h3, h4]
      · simp only [h1, if_true, h2, h3, if_pos, if_neg] at h
        exact absurd h (not_le.mpr h1)
    · simp only [h1, if_true, h2, if_pos, if_neg] at h
      exact absurd h (not_le.mpr h1)
  · simp [h1]

/-- Claim C1: on a listening, bound socket with a valid descriptor, when
`tcp_socket_accept` returns a socket, that socket's base record is
`Connected` and carries the accepted descriptor, its `address_remote` is the
address buffer written by the OS `accept` call (one of the two calls'
results), and its `address_local` is the `getsockname` result; when it
returns no socket, the base table is exactly the one before the call, so no
new socket exists. -/
theorem tcp_socket_accept_success_spec (t : List SocketBase) (sock : Socket)
    (tm : Nat) (os : AcceptOS) (hb : ¬ sock.base < 0)
    (hstate : (baseAt t sock.base).state = SocketState.Listening)
    (hfd : (baseAt t sock.base).fd ≠ SOCKET_INVALID)
    (hla : sock.address_local ≠ none) :
    (∀ acc, (tcp_socket_accept t sock tm os).accepted = some acc →
       0 ≤ acceptSyscallFd t sock tm os ∧
       (baseAt (tcp_socket_accept t sock tm os).table acc.base).state =
         SocketState.Connected ∧
       (baseAt (tcp_socket_accept t sock tm os).table acc.base).fd =
         acceptSyscallFd t sock tm os ∧
       acc.address_remote = some (acceptSyscallAddr t sock tm os) ∧
       acc.address_local = some os.localAddr) ∧
    ((tcp_socket_accept t sock tm os).accepted = none →
       (tcp_socket_accept t sock tm os).table = t) ∧
    (0 ≤ acceptSyscallFd t sock tm os →
       acceptSyscallAddr t sock tm os = os.call1.addr ∨
       acceptSyscallAddr t sock tm os = os.call2.addr) := by
  refine ⟨?_, ?_, fun h => acceptSyscall_addr_cases t sock tm os h⟩ <;>
    rw [tcp_socket_accept_listening_eq t sock tm os hb hstate hfd hla]
  · intro acc hacc
    by_cases hneg : acceptSyscallFd t sock tm os < 0
    · simp [hneg] at hacc
    · by_cases hok : os.allocSockOk = true
      · by_cases hbk : os.allocBaseOk = true
        · simp only [hneg, if_false, hok, hbk, Bool.true_eq_false,
                     if_neg, if_pos] at hacc ⊢
          simp at hacc
          subst hacc
          refine ⟨not_lt.mp hneg, ?_, ?_, rfl, rfl⟩ <;>
            simp [baseAt_snoc_self]
        · simp [hneg, hok, hbk] at hacc
      · simp [hneg, hok] at hacc
  · intro hnone
    by_cases hneg : acceptSyscallFd t sock tm os < 0
    · simp [hneg]
    · by_cases hok : os.allocSockOk = true
      · by_cases hbk : os.allocBaseOk = true
        · simp [hneg, hok, hbk] at hnone
        · simp [hneg, hok, hbk]
      · simp [hneg, hok]

/-- Witness for C1: a fully successful accept with timeout 100 ms on a
blocking listener, where the first OS accept would block, `select` reports
readiness and the retried accept returns descriptor 5. -/
theorem tcp_socket_accept_success_spec_witness :
    (∀ acc,
       (tcp_socket_accept [⟨3, SocketState.Listening, ⟨true, false, false, false⟩⟩]
           ⟨0, some ⟨2, [127, 0, 0, 1], 8080⟩, none, 77⟩ 100
           ⟨⟨-1, ⟨2, [127, 0, 0, 1], 8080⟩, EAGAIN⟩, 1, ⟨5, ⟨2, [10, 0, 0, 2], 5555⟩, 0⟩,
            true, 99, true, ⟨2, [127, 0, 0, 1], 8081⟩⟩).accepted = some acc →
       0 ≤ acceptSyscallFd [⟨3, SocketState.Listening, ⟨true, false, false, false⟩⟩]
           ⟨0, some ⟨2, [127, 0, 0, 1], 8080⟩, none, 77⟩ 100
           ⟨⟨-1, ⟨2, [127, 0, 0, 1], 8080⟩, EAGAIN⟩, 1, ⟨5, ⟨2, [10, 0, 0, 2], 5555⟩, 0⟩,
            true, 99, true, ⟨2, [127, 0, 0, 1], 8081⟩⟩ ∧
       (baseAt (tcp_socket_accept [⟨3, SocketState.Listening, ⟨true, false, false, false⟩⟩]
           ⟨0, some ⟨2, [127, 0, 0, 1], 8080⟩, none, 77⟩ 100
           ⟨⟨-1, ⟨2, [127, 0, 0, 1], 8080⟩, EAGAIN⟩, 1, ⟨5, ⟨2, [10, 0, 0, 2], 5555⟩, 0⟩,
            true, 99, true, ⟨2, [127, 0, 0, 1], 8081⟩⟩).table acc.base).state =
         SocketState.Connected ∧
       (baseAt (tcp_socket_accept [⟨3, SocketState.Listening, ⟨true, false, false, false⟩⟩]
           ⟨0, some ⟨2, [127, 0, 0, 1], 8080⟩, none, 77⟩ 100
           ⟨⟨-1, ⟨2, [127, 0, 0, 1], 8080⟩, EAGAIN⟩, 1, ⟨5, ⟨2, [10, 0, 0, 2], 5555⟩, 0⟩,
            true, 99, true, ⟨2, [127, 0, 0, 1], 8081⟩⟩).table acc.base).fd =
         acceptSyscallFd [⟨3, SocketState.Listening, ⟨true, false, false, false⟩⟩]
           ⟨0, some ⟨2, [127, 0, 0, 1], 8080⟩, none, 77⟩ 100
           ⟨⟨-1, ⟨2, [127, 0, 0, 1], 8080⟩, EAGAIN⟩, 1, ⟨5, ⟨2, [10, 0, 0, 2], 5555⟩, 0⟩,
            true, 99, true, ⟨2, [127, 0, 0, 1], 8081⟩⟩ ∧
       acc.address_remote = some (acceptSyscallAddr
           [⟨3, SocketState.Listening, ⟨true, false, false, false⟩⟩]
           ⟨0, some ⟨2, [127, 0, 0, 1], 8080⟩, none, 77⟩ 100
           ⟨⟨-1, ⟨2, [127, 0, 0, 1], 8080⟩, EAGAIN⟩, 1, ⟨5, ⟨2, [10, 0, 0, 2], 5555⟩, 0⟩,
            true, 99, true, ⟨2, [127, 0, 0, 1], 8081⟩⟩) ∧
       acc.address_local = some ⟨2, [127, 0, 0, 1], 8081⟩) ∧
    ((tcp_socket_accept [⟨3, SocketState.Listening, ⟨true, false, false, false⟩⟩]
        ⟨0, some ⟨2, [127, 0, 0, 1], 8080⟩, none, 77⟩ 100
        ⟨⟨-1, ⟨2, [127, 0, 0, 1], 8080⟩, EAGAIN⟩, 1, ⟨5, ⟨2, [10, 0, 0, 2], 5555⟩, 0⟩,
         true, 99, true, ⟨2, [127, 0, 0, 1], 8081⟩⟩).accepted = none →
       (tcp_socket_accept [⟨3, SocketState.Listening, ⟨true, false, false, false⟩⟩]
        ⟨0, some ⟨2, [127, 0, 0, 1], 8080⟩, none, 77⟩ 100
        ⟨⟨-1, ⟨2, [127, 0, 0, 1], 8080⟩, EAGAIN⟩, 1, ⟨5, ⟨2, [10, 0, 0, 2], 5555⟩, 0⟩,
         true, 99, true, ⟨2, [127, 0, 0, 1], 8081⟩⟩).table =
       [⟨3, SocketState.Listening, ⟨true, false, false, false⟩⟩]) ∧
    (0 ≤ acceptSyscallFd [⟨3, SocketState.Listening, ⟨true, false, false, false⟩⟩]
        ⟨0, some ⟨2, [127, 0, 0, 1], 8080⟩, none, 77⟩ 100
        ⟨⟨-1, ⟨2, [127, 0, 0, 1], 8080⟩, EAGAIN⟩, 1, ⟨5, ⟨2, [10, 0, 0, 2], 5555⟩, 0⟩,
         true, 99, true, ⟨2, [127, 0, 0, 1], 8081⟩⟩ →
       acceptSyscallAddr [⟨3, SocketState.Listening, ⟨true, false, false, false⟩⟩]
           ⟨0, some ⟨2, [127, 0, 0, 1], 8080⟩, none, 77⟩ 100
           ⟨⟨-1, ⟨2, [127, 0, 0, 1], 8080⟩, EAGAIN⟩, 1, ⟨5, ⟨2, [10, 0, 0, 2], 5555⟩, 0⟩,
            true, 99, true, ⟨2, [127, 0, 0, 1], 8081⟩⟩ =
         ⟨2, [127, 0, 0, 1], 8080⟩ ∨
       acceptSyscallAddr [⟨3, SocketState.Listening, ⟨true, false, false, false⟩⟩]
           ⟨0, some ⟨2, [127, 0, 0, 1], 8080⟩, none, 77⟩ 100
           ⟨⟨-1, ⟨2, [127, 0, 0, 1], 8080⟩, EAGAIN⟩, 1, ⟨5, ⟨2, [10, 0, 0, 2], 5555⟩, 0⟩,
            true, 99, true, ⟨2, [127, 0, 0, 1], 8081⟩⟩ =
         ⟨2, [10, 0, 0, 2], 5555⟩) :=
  tcp_socket_accept_success_spec
    [⟨3, SocketState.Listening, ⟨true, false, false, false⟩⟩]
    ⟨0, some ⟨2, [127, 0, 0, 1], 8080⟩, none, 77⟩ 100
    ⟨⟨-1, ⟨2, [127, 0, 0, 1], 8080⟩, EAGAIN⟩, 1, ⟨5, ⟨2, [10, 0, 0, 2], 5555⟩, 0⟩,
     true, 99, true, ⟨2, [127, 0, 0, 1], 8081⟩⟩
    (by decide) (by decide) (by decide) (by decide)

/-- A valid descriptor in a base record proves the index is in range. -/
theorem baseAt_lt_of_fd_valid (t : List SocketBase) (i : Int)
    (h : (baseAt t i).fd ≠ SOCKET_INVALID) : i.toNat < t.length := by
  by_contra hout
  push_neg at hout
  rw [baseAt_out_of_range t i hout] at h
  exact h rfl

/-- Claim C3: first, on every return path of `tcp_socket_accept` the
observable blocking mode of the listening socket after the call equals the
mode before it; second, when `timeoutms > 0`, the socket is blocking and the
first OS `accept` fails with `EAGAIN` while `select` reports readiness, the
call's effect trace is exactly: switch to non-blocking, `accept`, `select`
on the listen descriptor for up to `timeoutms`, one retried `accept`, then
restore blocking mode. -/
theorem tcp_socket_accept_blocking_mode_spec :
    (∀ (t : List SocketBase) (sock : Socket) (tm : Nat) (os : AcceptOS),
       (baseAt (tcp_socket_accept t sock tm os).table sock.base).flags.blocking =
         (baseAt t sock.base).flags.blocking) ∧
    (∀ (t : List SocketBase) (sock : Socket) (tm : Nat) (os : AcceptOS),
       ¬ sock.base < 0 →
       (baseAt t sock.base).state = SocketState.Listening →
       (baseAt t sock.base).fd ≠ SOCKET_INVALID →
       sock.address_local ≠ none →
       0 < tm →
       (baseAt t sock.base).flags.blocking = true →
       os.call1.fd < 0 →
       os.call1.errno = EAGAIN →
       0 < os.selectRet →
       ∃ tail,
         (tcp_socket_accept t sock tm os).effects =
           Effect.setBlockingOS (baseAt t sock.base).fd false ::
           Effect.osAccept (baseAt t sock.base).fd ::
           Effect.osSelect (baseAt t sock.base).fd tm ::
           Effect.osAccept (baseAt t sock.base).fd ::
           Effect.setBlockingOS (baseAt t sock.base).fd true :: tail) := by
  constructor
  · intro t sock tm os
    by_cases hb : sock.base < 0
    · simp [tcp_socket_accept, hb]
    · by_cases hcond : (baseAt t sock.base).state ≠ SocketState.Listening ∨
          (baseAt t sock.base).fd = SOCKET_INVALID ∨ sock.address_local = none
      · rw [tcp_socket_accept_invalid_eq t sock tm os hb hcond]
      · push_neg at hcond
        obtain ⟨hstate, hfd, hla⟩ := hcond
        have hlen := baseAt_lt_of_fd_valid t sock.base hfd
        rw [tcp_socket_accept_listening_eq t sock tm os hb hstate hfd hla]
        by_cases hneg : acceptSyscallFd t sock tm os < 0
        · simp [hneg]
        · by_cases hok : os.allocSockOk = true
          · by_cases hbk : os.allocBaseOk = true
            · simp [hneg, hok, hbk, baseAt_append_left t _ sock.base hlen]
            · simp [hneg, hok, hbk]
          · simp [hneg, hok]
  · intro t sock tm os hb hstate hfd hla htm hbl hc1 herr hsel
    rw [tcp_socket_accept_listening_eq t sock tm os hb hstate hfd hla]
    have heffs : acceptSyscallEffects t sock tm os =
        [Effect.osAccept (baseAt t sock.base).fd,
         Effect.osSelect (baseAt t sock.base).fd tm,
         Effect.osAccept (baseAt t sock.base).fd] := by
      simp [acceptSyscallEffects, _tcp_accept_syscalls, hc1, herr, hsel, htm]
    by_cases hneg : acceptSyscallFd t sock tm os < 0
    · exact ⟨[Effect.logDebug, Effect.deallocAddress],
        by simp [hneg, htm, hbl, heffs]⟩
    · by_cases hok : os.allocSockOk = true
      · by_cases hbk : os.allocBaseOk = true
        · exact ⟨[Effect.logInfo], by simp [hneg, hok, hbk, htm, hbl, heffs]⟩
        · exact ⟨[Effect.logDebug, Effect.deallocSocket],
            by simp [hneg, hok, hbk, htm, hbl, heffs]⟩
      · exact ⟨[Effect.logDebug, Effect.closeFd (acceptSyscallFd t sock tm os)],
          by simp [hneg, hok, htm, hbl, heffs]⟩

/-- Witness for C3 (second part) on a blocking listener, timeout 100 ms,
first accept would block, `select` ready, retried accept succeeds. -/
theorem tcp_socket_accept_blocking_mode_spec_witness :
    ∃ tail,
      (tcp_socket_accept [⟨3, SocketState.Listening, ⟨true, false, false, false⟩⟩]
          ⟨0, some ⟨2, [127, 0, 0, 1], 8080⟩, none, 77⟩ 100
          ⟨⟨-1, ⟨2, [127, 0, 0, 1], 8080⟩, EAGAIN⟩, 1, ⟨5, ⟨2, [10, 0, 0, 2], 5555⟩, 0⟩,
           true, 99, true, ⟨2, [127, 0, 0, 1], 8081⟩⟩).effects =
        Effect.setBlockingOS 3 false :: Effect.osAccept 3 :: Effect.osSelect 3 100 ::
        Effect.osAccept 3 :: Effect.setBlockingOS 3 true :: tail :=
  tcp_socket_accept_blocking_mode_spec.2
    [⟨3, SocketState.Listening, ⟨true, false, false, false⟩⟩]
    ⟨0, some ⟨2, [127, 0, 0, 1], 8080⟩, none, 77⟩ 100
    ⟨⟨-1, ⟨2, [127, 0, 0, 1], 8080⟩, EAGAIN⟩, 1, ⟨5, ⟨2, [10, 0, 0, 2], 5555⟩, 0⟩,
     true, 99, true, ⟨2, [127, 0, 0, 1], 8081⟩⟩
    (by decide) (by decide) (by decide) (by decide) (by decide) (by decide)
    (by decide) (by decide) (by decide)

/-- Claim C10: when `tcp_socket_accept` has an accepted OS descriptor in
hand but allocating the socket record or its base slot fails, it returns no
socket, closes the accepted descriptor (allocation of the record failed) or
deallocates the partial socket (allocation of the base slot failed), the
base table is exactly the one before the call, and the listener's base state
is still `Listening`. -/
theorem tcp_socket_accept_alloc_failure_spec (t : List SocketBase)
    (sock : Socket) (tm : Nat) (os : AcceptOS) (hb : ¬ sock.base < 0)
    (hstate : (baseAt t sock.base).state = SocketState.Listening)
    (hfd : (baseAt t sock.base).fd ≠ SOCKET_INVALID)
    (hla : sock.address_local ≠ none)
    (hacc : 0 ≤ acceptSyscallFd t sock tm os)
    (halloc : os.allocSockOk = false ∨ os.allocBaseOk = false) :
    (tcp_socket_accept t sock tm os).accepted = none ∧
    (tcp_socket_accept t sock tm os).table = t ∧
    (os.allocSockOk = false →
       Effect.closeFd (acceptSyscallFd t sock tm os) ∈
         (tcp_socket_accept t sock tm os).effects) ∧
    (os.allocSockOk = true →
       Effect.deallocSocket ∈ (tcp_socket_accept t sock tm os).effects) ∧
    (baseAt (tcp_socket_accept t sock tm os).table sock.base).state =
      SocketState.Listening := by
  rw [tcp_socket_accept_listening_eq t sock tm os hb hstate hfd hla]
  have hneg : ¬ acceptSyscallFd t sock tm os < 0 := not_lt.mpr hacc
  by_cases hok : os.allocSockOk = true
  · have hB : os.allocBaseOk = false := by
      rcases halloc with h | h
      · rw [hok] at h
        exact absurd h (by decide)
      · exact h
    simp [hneg, hok, hB, hstate]
  · have hA : os.allocSockOk = false := by
      revert hok
      cases os.allocSockOk <;> simp
    simp [hneg, hok, hA, hstate]

/-- Witness for C10: descriptor 5 accepted immediately, base-slot allocation
fails. -/
theorem tcp_socket_accept_alloc_failure_spec_witness :
    (tcp_socket_accept [⟨3, SocketState.Listening, ⟨true, false, false, false⟩⟩]
        ⟨0, some ⟨2, [127, 0, 0, 1], 8080⟩, none, 77⟩ 100
        ⟨⟨5, ⟨2, [10, 0, 0, 2], 5555⟩, 0⟩, 0, ⟨-1, ⟨0, [], 0⟩, 0⟩,
         true, 99, false, ⟨2, [127, 0, 0, 1], 8081⟩⟩).accepted = none ∧
    (tcp_socket_accept [⟨3, SocketState.Listening, ⟨true, false, false, false⟩⟩]
        ⟨0, some ⟨2, [127, 0, 0, 1], 8080⟩, none, 77⟩ 100
        ⟨⟨5, ⟨2, [10, 0, 0, 2], 5555⟩, 0⟩, 0, ⟨-1, ⟨0, [], 0⟩, 0⟩,
         true, 99, false, ⟨2, [127, 0, 0, 1], 8081⟩⟩).table =
      [⟨3, SocketState.Listening, ⟨true, false, false, false⟩⟩] ∧
    ((⟨⟨5, ⟨2, [10, 0, 0, 2], 5555⟩, 0⟩, 0, ⟨-1, ⟨0, [], 0⟩, 0⟩,
       true, 99, false, ⟨2, [127, 0, 0, 1], 8081⟩⟩ : AcceptOS).allocSockOk = false →
       Effect.closeFd (acceptSyscallFd
           [⟨3, SocketState.Listening, ⟨true, false, false, false⟩⟩]
           ⟨0, some ⟨2, [127, 0, 0, 1], 8080⟩, none, 77⟩ 100
           ⟨⟨5, ⟨2, [10, 0, 0, 2], 5555⟩, 0⟩, 0, ⟨-1, ⟨0, [], 0⟩, 0⟩,
            true, 99, false, ⟨2, [127, 0, 0, 1], 8081⟩⟩) ∈
         (tcp_socket_accept [⟨3, SocketState.Listening, ⟨true, false, false, false⟩⟩]
             ⟨0, some ⟨2, [127, 0, 0, 1], 8080⟩, none, 77⟩ 100
             ⟨⟨5, ⟨2, [10, 0, 0, 2], 5555⟩, 0⟩, 0, ⟨-1, ⟨0, [], 0⟩, 0⟩,
              true, 99, false, ⟨2, [127, 0, 0, 1], 8081⟩⟩).effects) ∧
    ((⟨⟨5, ⟨2, [10, 0, 0, 2], 5555⟩, 0⟩, 0, ⟨-1, ⟨0, [], 0⟩, 0⟩,
       true, 99, false, ⟨2, [127, 0, 0, 1], 8081⟩⟩ : AcceptOS).allocSockOk = true →
       Effect.deallocSocket ∈
         (tcp_socket_accept [⟨3, SocketState.Listening, ⟨true, false, false, false⟩⟩]
             ⟨0, some ⟨2, [127, 0, 0, 1], 8080⟩, none, 77⟩ 100
             ⟨⟨5, ⟨2, [10, 0, 0, 2], 5555⟩, 0⟩, 0, ⟨-1, ⟨0, [], 0⟩, 0⟩,
              true, 99, false, ⟨2, [127, 0, 0, 1], 8081⟩⟩).effects) ∧
    (baseAt (tcp_socket_accept [⟨3, SocketState.Listening, ⟨true, false, false, false⟩⟩]
        ⟨0, some ⟨2, [127, 0, 0, 1], 8080⟩, none, 77⟩ 100
        ⟨⟨5, ⟨2, [10, 0, 0, 2], 5555⟩, 0⟩, 0, ⟨-1, ⟨0, [], 0⟩, 0⟩,
         true, 99, false, ⟨2, [127, 0, 0, 1], 8081⟩⟩).table (0 : Int)).state =
      SocketState.Listening :=
  tcp_socket_accept_alloc_failure_spec
    [⟨3, SocketState.Listening, ⟨true, false, false, false⟩⟩]
    ⟨0, some ⟨2, [127, 0, 0, 1], 8080⟩, none, 77⟩ 100
    ⟨⟨5, ⟨2, [10, 0, 0, 2], 5555⟩, 0⟩, 0, ⟨-1, ⟨0, [], 0⟩, 0⟩,
     true, 99, false, ⟨2, [127, 0, 0, 1], 8081⟩⟩
    (by decide) (by decide) (by decide) (by decide) (by decide)
    (Or.inr (by decide))

end NetworkLib
